import Mathlib

/-
Shallow embedding of the htchirp Chirp client (src/htchirp/htchirp.py)
and proofs about its protocol engine: the error taxonomy, command
quoting, fixed-length block transfer, accumulated line transfer, the
authentication loop, and the session lifecycle of the facade methods.
-/

namespace HTChirp

/-- The closed set of error kinds of the Chirp error taxonomy
(the ChirpError subclasses at the bottom of htchirp.py). -/
inductive ChirpErrorKind where
  | notAuthenticated
  | notAuthorized
  | doesntExist
  | alreadyExists
  | tooBig
  | noSpace
  | noMemory
  | invalidRequest
  | tooManyOpen
  | busy
  | tryAgain
  | badFD
  | isDir
  | notDir
  | notEmpty
  | crossDeviceLink
  | offline
  | unknownError
deriving DecidableEq, Repr

/-- A raised Chirp error: one taxonomy kind plus its message string. -/
structure ChirpError where
  kind : ChirpErrorKind
  message : String
deriving DecidableEq, Repr

/-- The chirp_errors dictionary built inside HTChirp.__check_response,
with the exact message strings of the source. -/
def chirpErrorTable : List (Int × ChirpError) :=
  [(-1, ⟨.notAuthenticated, "The client has not authenticated its identity."⟩),
   (-2, ⟨.notAuthorized, "The client is not authorized to perform that action."⟩),
   (-3, ⟨.doesntExist, "There is no object by that name."⟩),
   (-4, ⟨.alreadyExists, "There is already an object by that name."⟩),
   (-5, ⟨.tooBig, "That request is too big to execute."⟩),
   (-6, ⟨.noSpace, "There is not enough space to store that."⟩),
   (-7, ⟨.noMemory, "The server is out of memory."⟩),
   (-8, ⟨.invalidRequest, "The form of the request is invalid."⟩),
   (-9, ⟨.tooManyOpen, "There are too many resources in use."⟩),
   (-10, ⟨.busy, "That object is in use by someone else."⟩),
   (-11, ⟨.tryAgain, "A temporary condition prevented the request."⟩),
   (-12, ⟨.badFD, "The file descriptor requested is invalid."⟩),
   (-13, ⟨.isDir, "A file-only operation was attempted on a directory."⟩),
   (-14, ⟨.notDir, "A directory operation was attempted on a file."⟩),
   (-15, ⟨.notEmpty, "A directory cannot be removed because it is not empty."⟩),
   (-16, ⟨.crossDeviceLink, "A hard link was attempted across devices."⟩),
   (-17, ⟨.offline, "The requested resource is temporarily not available."⟩),
   (-127, ⟨.unknownError, "An unknown error (-127) occured."⟩)]

/-- HTChirp.__check_response: look the integer response up in the table;
any other negative value becomes an UnknownError naming the code; a
non-negative value raises nothing (returns none). -/
def checkResponse (response : Int) : Option ChirpError :=
  match chirpErrorTable.lookup response with
  | some e => some e
  | none =>
    if response < 0 then
      some ⟨.unknownError, "An unknown error (" ++ toString response ++ ") occured."⟩
    else
      none

/-- The integer codes that appear as keys of the chirp_errors dictionary. -/
def errorCodes : List Int :=
  [-1, -2, -3, -4, -5, -6, -7, -8, -9, -10, -11, -12, -13, -14, -15, -16, -17, -127]

/-- The five characters escaped by quote (the escape_chars list). -/
def escapeChars : List Char := ['\\', ' ', '\n', '\t', '\r']

/-- Character-list form of the quote function: the regex substitution
prepends a backslash to every occurrence of one of the five escape
characters and leaves every other character unchanged. -/
def quoteL : List Char → List Char
  | [] => []
  | c :: rest => (if c ∈ escapeChars then ['\\', c] else [c]) ++ quoteL rest

/-- htchirp.quote: prepare a string for a Chirp simple command. -/
def quote (s : String) : String := ⟨quoteL s.data⟩

/-- Modelled from the spec: the matching unescaping inverse of quote
(the source ships no unquote; the spec's round-trip property fixes its
behavior: a backslash-escaped character decodes to the character). -/
def unquoteL : List Char → List Char
  | [] => []
  | [c] => [c]
  | c₁ :: c₂ :: rest =>
    if c₁ = '\\' then c₂ :: unquoteL rest else c₁ :: unquoteL (c₂ :: rest)

/-- Modelled from the spec: string form of the unescaping inverse. -/
def unquote (s : String) : String := ⟨unquoteL s.data⟩

/-- Digit-string accumulator for Python int() on a clean token. -/
def parseDigitsAux : List Char → Nat → Option Nat
  | [], acc => some acc
  | c :: cs, acc =>
    if c.isDigit then parseDigitsAux cs (acc * 10 + (c.toNat - 48)) else none

/-- Parse a nonempty all-digit character list as a natural number. -/
def parseDigits (l : List Char) : Option Nat :=
  match l with
  | [] => none
  | _ :: _ => parseDigitsAux l 0

/-- Python int(s) on a stripped token: optional sign then digits;
none models the ValueError int() raises on non-numeric text. -/
def pyInt? (s : String) : Option Int :=
  match s.data with
  | '-' :: ds => (parseDigits ds).map (fun n => -(n : Int))
  | '+' :: ds => (parseDigits ds).map (fun n => (n : Int))
  | ds => (parseDigits ds).map (fun n => (n : Int))

/-- An association-list lookup that succeeds only finds keys of the list. -/
lemma lookup_mem_keys (l : List (Int × ChirpError)) (r : Int) (e : ChirpError)
    (h : l.lookup r = some e) : r ∈ l.map Prod.fst := by
  induction l with
  | nil => simp [List.lookup] at h
  | cons p t ih =>
    obtain ⟨k, v⟩ := p
    by_cases hk : r = k
    · simp [hk]
    · have hb : (r == k) = false := beq_eq_false_iff_ne.mpr hk
      rw [List.lookup, hb] at h
      simp [ih h]

/-- A code outside the table keys is not found by the lookup. -/
lemma lookup_eq_none_of_not_mem (r : Int) (h : r ∉ errorCodes) :
    chirpErrorTable.lookup r = none := by
  cases hl : chirpErrorTable.lookup r with
  | none => rfl
  | some e =>
    exfalso
    have hm := lookup_mem_keys _ _ _ hl
    have hk : chirpErrorTable.map Prod.fst = errorCodes := by rfl
    rw [hk] at hm
    exact h hm

/-- C1: each code in {-1,...,-17} raises exactly the taxonomy kind fixed by
the table; every other negative code, including -127, raises UnknownError
with the numeric code appearing in its message; and no non-negative code
ever raises an error. -/
theorem checkResponse_taxonomy :
    ((checkResponse (-1)).map ChirpError.kind = some .notAuthenticated
      ∧ (checkResponse (-2)).map ChirpError.kind = some .notAuthorized
      ∧ (checkResponse (-3)).map ChirpError.kind = some .doesntExist
      ∧ (checkResponse (-4)).map ChirpError.kind = some .alreadyExists
      ∧ (checkResponse (-5)).map ChirpError.kind = some .tooBig
      ∧ (checkResponse (-6)).map ChirpError.kind = some .noSpace
      ∧ (checkResponse (-7)).map ChirpError.kind = some .noMemory
      ∧ (checkResponse (-8)).map ChirpError.kind = some .invalidRequest
      ∧ (checkResponse (-9)).map ChirpError.kind = some .tooManyOpen
      ∧ (checkResponse (-10)).map ChirpError.kind = some .busy
      ∧ (checkResponse (-11)).map ChirpError.kind = some .tryAgain
      ∧ (checkResponse (-12)).map ChirpError.kind = some .badFD
      ∧ (checkResponse (-13)).map ChirpError.kind = some .isDir
      ∧ (checkResponse (-14)).map ChirpError.kind = some .notDir
      ∧ (checkResponse (-15)).map ChirpError.kind = some .notEmpty
      ∧ (checkResponse (-16)).map ChirpError.kind = some .crossDeviceLink
      ∧ (checkResponse (-17)).map ChirpError.kind = some .offline)
    ∧ (∀ r : Int, r < 0 → r ∉ errorCodes →
        checkResponse r =
          some ⟨.unknownError, "An unknown error (" ++ toString r ++ ") occured."⟩)
    ∧ (∃ pre post, checkResponse (-127) =
        some ⟨.unknownError, pre ++ toString (-127 : Int) ++ post⟩)
    ∧ (∀ r : Int, 0 ≤ r → checkResponse r = none) := by
  refine ⟨by decide, ?_, ?_, ?_⟩
  · intro r hneg hnot
    rw [checkResponse, lookup_eq_none_of_not_mem r hnot]
    simp [hneg]
  · exact ⟨"An unknown error (", ") occured.", by decide⟩
  · intro r h
    have hnot : r ∉ errorCodes := by
      intro hm
      fin_cases hm <;> omega
    rw [checkResponse, lookup_eq_none_of_not_mem r hnot]
    simp [not_lt.mpr h]

/-- Witness for C1 at the concrete codes -99 and 5. -/
theorem checkResponse_taxonomy_witness :
    checkResponse (-99) =
      some ⟨.unknownError, "An unknown error (" ++ toString (-99 : Int) ++ ") occured."⟩
    ∧ checkResponse 5 = none := by
  exact ⟨checkResponse_taxonomy.2.1 (-99) (by decide) (by decide),
         checkResponse_taxonomy.2.2.2 5 (by decide)⟩

/-- quote distributes over list append. -/
lemma quoteL_append (a b : List Char) : quoteL (a ++ b) = quoteL a ++ quoteL b := by
  induction a with
  | nil => rfl
  | cons c t ih => simp [quoteL, ih]

/-- quote of a nonempty list is nonempty. -/
lemma quoteL_ne_nil (c : Char) (t : List Char) : quoteL (c :: t) ≠ [] := by
  by_cases hc : c ∈ escapeChars <;> simp [quoteL, hc]

/-- The modelled inverse undoes quote on character lists. -/
lemma unquote_quoteL (l : List Char) : unquoteL (quoteL l) = l := by
  induction l with
  | nil => rfl
  | cons c t ih =>
    by_cases hc : c ∈ escapeChars
    · simpa [quoteL, hc, unquoteL] using ih
    · have hc' : c ≠ '\\' := by
        intro h
        rw [h] at hc
        exact hc (by decide)
      cases t with
      | nil => simp [quoteL, hc, unquoteL]
      | cons d t' =>
        cases hq : quoteL (d :: t') with
        | nil => exact absurd hq (quoteL_ne_nil d t')
        | cons e rest =>
          rw [hq] at ih
          have hstep : quoteL (c :: d :: t') = c :: quoteL (d :: t') := by
            simp [quoteL, hc]
          rw [hstep, hq]
          simp [unquoteL, hc', ih]

/-- C3: quote escapes exactly the five characters backslash, space,
newline, tab, carriage return by prefixing each with a single backslash,
leaves every other character unchanged, and composing with the matching
unescaping inverse recovers the original string. -/
theorem quote_escapes_roundtrip (s t : String) :
    quote (s ++ t) = quote s ++ quote t
    ∧ unquote (quote s) = s
    ∧ (∀ c : Char, c ∉ escapeChars → quote (String.singleton c) = String.singleton c)
    ∧ (∀ c : Char, c ∈ escapeChars → (quote (String.singleton c)).data = ['\\', c]) := by
  obtain ⟨ls⟩ := s
  obtain ⟨lt⟩ := t
  refine ⟨?_, ?_, ?_, ?_⟩
  · show String.mk (quoteL (ls ++ lt)) = String.mk (quoteL ls ++ quoteL lt)
    rw [quoteL_append]
  · show String.mk (unquoteL (quoteL ls)) = String.mk ls
    rw [unquote_quoteL]
  · intro c hc
    show String.mk (quoteL [c]) = String.mk [c]
    simp [quoteL, hc]
  · intro c hc
    show quoteL [c] = ['\\', c]
    simp [quoteL, hc]

/-- Witness for C3 on concrete strings and characters. -/
theorem quote_escapes_roundtrip_witness :
    quote ("a " ++ "b\\c") = quote "a " ++ quote "b\\c"
    ∧ unquote (quote "a ") = "a "
    ∧ quote (String.singleton 'x') = String.singleton 'x'
    ∧ (quote (String.singleton ' ')).data = ['\\', ' '] := by
  have h := quote_escapes_roundtrip "a " "b\\c"
  exact ⟨h.1, h.2.1, h.2.2.1 'x' (by decide), h.2.2.2 ' ' (by decide)⟩

/-- The receive loop of HTChirp.__get_fixed_data in its in-memory branch:
while fewer than length bytes are held, append the next socket.recv chunk.
The chunk list models the successive values recv returns; exhausting it
while still short models a recv that blocks forever (none). Returns the
accumulated data and the chunks left unconsumed on the transport. -/
def getFixedDataLoop (length : Nat) : List (List Nat) → List Nat →
    Option (List Nat × List (List Nat))
  | chunks, data =>
    if length ≤ data.length then some (data, chunks)
    else
      match chunks with
      | [] => none
      | c :: rest => getFixedDataLoop length rest (data ++ c)

/-- HTChirp.__get_fixed_data returning data to the method call. -/
def getFixedData (length : Nat) (chunks : List (List Nat)) : Option (List Nat) :=
  (getFixedDataLoop length chunks []).map Prod.fst

/-- The receive loop of HTChirp.__get_fixed_data in its output-file branch:
while bytes_recv is below length, write the next recv chunk to the file
and add its size to bytes_recv. Returns the byte count, the bytes written
to the local sink, and the chunks left unconsumed. -/
def getFixedFileLoop (length : Nat) : List (List Nat) → Nat → List Nat →
    Option (Nat × List Nat × List (List Nat))
  | chunks, bytesRecv, fileData =>
    if length ≤ bytesRecv then some (bytesRecv, fileData, chunks)
    else
      match chunks with
      | [] => none
      | c :: rest => getFixedFileLoop length rest (bytesRecv + c.length) (fileData ++ c)

/-- HTChirp.__get_fixed_data streaming to an output file: the returned
value is the number of bytes received, paired with the file contents. -/
def getFixedDataFile (length : Nat) (chunks : List (List Nat)) :
    Option (Nat × List Nat) :=
  (getFixedFileLoop length chunks 0 []).map (fun r => (r.1, r.2.1))

/-- HTChirp.getfile after its response line: stream the announced number
of payload bytes to the local file and return the byte count. -/
def getfileBytes (length : Nat) (chunks : List (List Nat)) : Option Nat :=
  (getFixedDataFile length chunks).map Prod.fst

/-- Invariant of the in-memory receive loop: when the held data plus all
remaining transport bytes measure exactly the target length, the loop
returns all of them and leaves only empty chunks unconsumed. -/
lemma getFixedDataLoop_exact (N : Nat) (chunks : List (List Nat)) :
    ∀ data : List Nat, (data ++ chunks.flatten).length = N →
      ∃ rest, getFixedDataLoop N chunks data = some (data ++ chunks.flatten, rest)
        ∧ rest.flatten = ([] : List Nat) := by
  induction chunks with
  | nil =>
    intro data h
    simp at h
    refine ⟨[], ?_, rfl⟩
    rw [getFixedDataLoop]
    simp [h]
  | cons c rest ih =>
    intro data h
    rw [List.length_append] at h
    by_cases hle : N ≤ data.length
    · have hf0 : ((c :: rest).flatten).length = 0 := by omega
      have hj' : (c :: rest).flatten = ([] : List Nat) :=
        List.eq_nil_of_length_eq_zero hf0
      refine ⟨c :: rest, ?_, hj'⟩
      rw [getFixedDataLoop, if_pos hle, hj', List.append_nil]
    · rw [getFixedDataLoop, if_neg hle]
      have h' : ((data ++ c) ++ rest.flatten).length = N := by
        rw [List.length_append, List.length_append]
        rw [List.flatten_cons, List.length_append] at h
        omega
      obtain ⟨r, hr, hrj⟩ := ih (data ++ c) h'
      refine ⟨r, ?_, hrj⟩
      rw [hr]
      simp

/-- Invariant of the output-file receive loop: with bytes_recv equal to
the bytes already written, and held plus remaining bytes measuring the
target, the loop reports exactly the target count and writes exactly the
remaining transport bytes. -/
lemma getFixedFileLoop_exact (N : Nat) (chunks : List (List Nat)) :
    ∀ data : List Nat, (data ++ chunks.flatten).length = N →
      ∃ rest, getFixedFileLoop N chunks data.length data =
          some (N, data ++ chunks.flatten, rest)
        ∧ rest.flatten = ([] : List Nat) := by
  induction chunks with
  | nil =>
    intro data h
    simp at h
    refine ⟨[], ?_, rfl⟩
    rw [getFixedFileLoop]
    simp [h]
  | cons c rest ih =>
    intro data h
    rw [List.length_append] at h
    by_cases hle : N ≤ data.length
    · have hf0 : ((c :: rest).flatten).length = 0 := by omega
      have hj' : (c :: rest).flatten = ([] : List Nat) :=
        List.eq_nil_of_length_eq_zero hf0
      have hdN : data.length = N := by omega
      refine ⟨c :: rest, ?_, hj'⟩
      rw [getFixedFileLoop, if_pos hle, hj', List.append_nil, hdN]
    · rw [getFixedFileLoop, if_neg hle]
      have h' : ((data ++ c) ++ rest.flatten).length = N := by
        rw [List.length_append, List.length_append]
        rw [List.flatten_cons, List.length_append] at h
        omega
      obtain ⟨r, hr, hrj⟩ := ih (data ++ c) h'
      rw [List.length_append] at hr
      refine ⟨r, ?_, hrj⟩
      rw [hr]
      simp

/-- C4: for every announced length N and every splitting of the payload
into transport chunks, the fixed-length receive consumes exactly the N
payload bytes and returns exactly them (or writes exactly them to the
local sink, reporting N bytes), never fewer and never more. -/
theorem getFixedData_exact (N : Nat) (payload : List Nat) (chunks : List (List Nat))
    (hsplit : chunks.flatten = payload) (hlen : payload.length = N) :
    (∃ rest, getFixedDataLoop N chunks [] = some (payload, rest)
      ∧ rest.flatten = ([] : List Nat))
    ∧ getFixedData N chunks = some payload
    ∧ (∃ rest, getFixedFileLoop N chunks 0 [] = some (N, payload, rest)
      ∧ rest.flatten = ([] : List Nat))
    ∧ getFixedDataFile N chunks = some (N, payload) := by
  have h : (([] : List Nat) ++ chunks.flatten).length = N := by
    simpa [hsplit] using hlen
  obtain ⟨r₁, hr₁, hrj₁⟩ := getFixedDataLoop_exact N chunks [] h
  obtain ⟨r₂, hr₂, hrj₂⟩ := getFixedFileLoop_exact N chunks [] h
  simp only [List.nil_append, hsplit] at hr₁ hr₂
  simp only [List.length_nil] at hr₂
  refine ⟨⟨r₁, hr₁, hrj₁⟩, ?_, ⟨r₂, hr₂, hrj₂⟩, ?_⟩
  · rw [getFixedData, hr₁]
    rfl
  · rw [getFixedDataFile, hr₂]
    rfl

/-- Witness for C4: a 10-byte payload delivered in chunks of size 7 and 3. -/
theorem getFixedData_exact_witness :
    (∃ rest, getFixedDataLoop 10 [[1, 2, 3, 4, 5, 6, 7], [8, 9, 10]] [] =
        some ([1, 2, 3, 4, 5, 6, 7, 8, 9, 10], rest)
      ∧ rest.flatten = ([] : List Nat))
    ∧ getFixedData 10 [[1, 2, 3, 4, 5, 6, 7], [8, 9, 10]] =
        some [1, 2, 3, 4, 5, 6, 7, 8, 9, 10]
    ∧ (∃ rest, getFixedFileLoop 10 [[1, 2, 3, 4, 5, 6, 7], [8, 9, 10]] 0 [] =
        some (10, [1, 2, 3, 4, 5, 6, 7, 8, 9, 10], rest)
      ∧ rest.flatten = ([] : List Nat))
    ∧ getFixedDataFile 10 [[1, 2, 3, 4, 5, 6, 7], [8, 9, 10]] =
        some (10, [1, 2, 3, 4, 5, 6, 7, 8, 9, 10]) :=
  getFixedData_exact 10 [1, 2, 3, 4, 5, 6, 7, 8, 9, 10]
    [[1, 2, 3, 4, 5, 6, 7], [8, 9, 10]] (by decide) (by decide)

/-- C10: when the announced payload length is 0, the fixed-length receive
performs no transport read at all (every chunk is left unconsumed) and
returns empty data, the file branch reports 0 bytes written, and getfile
of an empty file returns 0. -/
theorem getFixedData_zero_length (chunks : List (List Nat)) :
    getFixedDataLoop 0 chunks [] = some ([], chunks)
    ∧ getFixedFileLoop 0 chunks 0 [] = some (0, [], chunks)
    ∧ getFixedData 0 chunks = some []
    ∧ getfileBytes 0 chunks = some 0 := by
  have h1 : getFixedDataLoop 0 chunks [] = some ([], chunks) := by
    cases chunks <;> (rw [getFixedDataLoop]; simp)
  have h2 : getFixedFileLoop 0 chunks 0 [] = some (0, [], chunks) := by
    cases chunks <;> (rw [getFixedFileLoop]; simp)
  refine ⟨h1, h2, ?_, ?_⟩
  · rw [getFixedData, h1]
    rfl
  · rw [getfileBytes, getFixedDataFile, h2]
    rfl

/-- The whitespace characters of Python str.split() / str.rstrip(). -/
def isPySpace (c : Char) : Bool :=
  c == ' ' || c == '\t' || c == '\n' || c == '\r' || c == '\x0b' || c == '\x0c'

/-- Accumulator form of Python str.split() with no arguments: split on
runs of whitespace, producing no empty tokens. The accumulator holds the
current token reversed. -/
def pySplitAux : List Char → List Char → List (List Char)
  | [], acc => if acc.isEmpty then [] else [acc.reverse]
  | c :: cs, acc =>
    if isPySpace c then
      if acc.isEmpty then pySplitAux cs [] else acc.reverse :: pySplitAux cs []
    else pySplitAux cs (c :: acc)

/-- Python str.split() on a character list. -/
def pySplitL (l : List Char) : List (List Char) := pySplitAux l []

/-- Python str.split() on a string. -/
def pySplit (s : String) : List String := (pySplitL s.data).map (fun l => ⟨l⟩)

/-- Python str.rstrip(): drop trailing whitespace. -/
def pyRstripL (l : List Char) : List Char :=
  (l.reverse.dropWhile isPySpace).reverse

/-- Python str.rstrip() on a string. -/
def pyRstrip (s : String) : String := ⟨pyRstripL s.data⟩

/-- The 13 field names used by stat and lstat. -/
def statNames : List String :=
  ["device", "inode", "mode", "nlink", "uid", "gid", "rdevice",
   "size", "blksize", "blocks", "atime", "mtime", "ctime"]

/-- The 7 field names used by statfs, after the f_ prefixing loop. -/
def statfsNames : List String :=
  ["f_type", "f_bsize", "f_blocks", "f_bfree", "f_bavail", "f_files", "f_free"]

/-- The accumulation loop shared by stat, lstat and statfs: while the
accumulated text re-splits into fewer whitespace-delimited tokens than
the target field count, append a space and the next rstripped line. -/
def statAccumLoop (target : Nat) : List String → List Char → Option (List Char)
  | lines, acc =>
    if target ≤ (pySplitL acc).length then some acc
    else
      match lines with
      | [] => none
      | l :: rest => statAccumLoop target rest (acc ++ ' ' :: pyRstripL l.data)

/-- stat / lstat / statfs response reading: take the first line rstripped
as the initial accumulator, run the accumulation loop, split the result
into tokens. -/
def statRead (target : Nat) (lines : List String) : Option (List (List Char)) :=
  match lines with
  | [] => none
  | l :: rest => (statAccumLoop target rest (pyRstripL l.data)).map pySplitL

/-- The tail of stat / lstat / statfs: parse each token as an integer and
zip the integers in order with the fixed field-name list. -/
def statParse (names : List String) (target : Nat) (lines : List String) :
    Option (List (String × Int)) :=
  match statRead target lines with
  | none => none
  | some toks =>
    match toks.mapM (fun t => pyInt? ⟨t⟩) with
    | none => none
    | some ints => some (names.zip ints)

/-- Splitting distributes over a spliced-in space: re-splitting text
accumulated with a space separator yields the two token lists in order. -/
lemma pySplitAux_append_space (b : List Char) :
    ∀ (a acc : List Char),
      pySplitAux (a ++ ' ' :: b) acc = pySplitAux a acc ++ pySplitAux b [] := by
  intro a
  induction a with
  | nil =>
    intro acc
    by_cases hacc : acc.isEmpty <;> simp [pySplitAux, hacc, isPySpace]
  | cons c t ih =>
    intro acc
    by_cases hc : isPySpace c
    · by_cases hacc : acc.isEmpty <;> simp [pySplitAux, hc, hacc, ih]
    · simp [pySplitAux, hc, ih]

/-- pySplitL version of the space-splice distribution law. -/
lemma pySplitL_append_space (a b : List Char) :
    pySplitL (a ++ ' ' :: b) = pySplitL a ++ pySplitL b := by
  rw [pySplitL, pySplitAux_append_space]
  rfl

/-- Invariant of the accumulation loop: if the tokens already held plus
the tokens of the remaining lines are exactly the target token list, the
loop succeeds and the accumulated text re-splits to that token list. -/
lemma statAccumLoop_exact (target : Nat) :
    ∀ (lines : List String) (acc : List Char) (ts : List (List Char)),
      pySplitL acc ++ (lines.map (fun l => pySplitL (pyRstripL l.data))).flatten = ts →
      ts.length = target →
      ∃ acc', statAccumLoop target lines acc = some acc' ∧ pySplitL acc' = ts := by
  intro lines
  induction lines with
  | nil =>
    intro acc ts h hlen
    simp at h
    refine ⟨acc, ?_, h⟩
    rw [statAccumLoop, if_pos (by rw [h, hlen])]
  | cons l rest ih =>
    intro acc ts h hlen
    by_cases hle : target ≤ (pySplitL acc).length
    · have hlens := congrArg List.length h
      rw [List.length_append] at hlens
      have hB0 : (((l :: rest).map
          (fun l => pySplitL (pyRstripL l.data))).flatten).length = 0 := by omega
      have hBnil := List.eq_nil_of_length_eq_zero hB0
      rw [hBnil, List.append_nil] at h
      refine ⟨acc, ?_, h⟩
      rw [statAccumLoop, if_pos hle]
    · rw [statAccumLoop, if_neg hle]
      refine ih (acc ++ ' ' :: pyRstripL l.data) ts ?_ hlen
      rw [pySplitL_append_space, List.append_assoc]
      rw [List.map_cons, List.flatten_cons] at h
      exact h

/-- C8: for the accumulated-line reader with a fixed token target (13 for
stat/lstat, 7 for statfs), a response delivered as one line holding
exactly the target number of tokens and the same tokens split arbitrarily
across several lines both succeed, produce the same token list, and parse
to the identical field mapping. -/
theorem stat_accumulate_split (target : Nat) (names : List String) (L : String)
    (ls : List String) (ts : List (List Char))
    (hL : pySplitL (pyRstripL L.data) = ts)
    (hlen : ts.length = target) (hpos : 0 < target)
    (hsplit : (ls.map (fun l => pySplitL (pyRstripL l.data))).flatten = ts) :
    statRead target [L] = some ts
    ∧ statRead target ls = some ts
    ∧ statParse names target [L] = statParse names target ls := by
  have h1 : statRead target [L] = some ts := by
    rw [statRead, statAccumLoop, if_pos (by rw [hL, hlen])]
    simp [hL]
  have h2 : statRead target ls = some ts := by
    cases ls with
    | nil =>
      exfalso
      simp at hsplit
      rw [hsplit] at hlen
      simp at hlen
      omega
    | cons l rest =>
      rw [statRead]
      rw [List.map_cons, List.flatten_cons] at hsplit
      obtain ⟨acc', hacc', hts⟩ := statAccumLoop_exact target rest
        (pyRstripL l.data) ts hsplit hlen
      rw [hacc']
      simp [hts]
  refine ⟨h1, h2, ?_⟩
  simp only [statParse, h1, h2]

/-- Witness for C8: thirteen tokens on one line versus the same tokens
over three lines. -/
theorem stat_accumulate_split_witness :
    statRead 13 ["1 2 3 4 5 6 7 8 9 10 11 12 13"] =
      some (pySplitL (pyRstripL ("1 2 3 4 5 6 7 8 9 10 11 12 13" : String).data))
    ∧ statRead 13 ["1 2 3", "4 5 6 7 8 9", "10 11 12 13"] =
      some (pySplitL (pyRstripL ("1 2 3 4 5 6 7 8 9 10 11 12 13" : String).data))
    ∧ statParse statNames 13 ["1 2 3 4 5 6 7 8 9 10 11 12 13"] =
      statParse statNames 13 ["1 2 3", "4 5 6 7 8 9", "10 11 12 13"] := by
  exact stat_accumulate_split 13 statNames "1 2 3 4 5 6 7 8 9 10 11 12 13"
    ["1 2 3", "4 5 6 7 8 9", "10 11 12 13"]
    (pySplitL (pyRstripL ("1 2 3 4 5 6 7 8 9 10 11 12 13" : String).data))
    rfl (by decide) (by decide) (by decide)

/-- The per-operation session state: whether the client socket is open,
and the table of open remote file descriptors. -/
structure Session where
  socketOpen : Bool
  fds : List Nat
deriving DecidableEq, Repr

/-- HTChirp.__connect: (re)open the socket and reset the descriptor table. -/
def connectS (_ : Session) : Session := ⟨true, []⟩

/-- HTChirp.__disconnect: close the socket and reset the descriptor table. -/
def disconnectS (_ : Session) : Session := ⟨false, []⟩

/-- The Python exceptions the embedded methods can raise. -/
inductive PyExc where
  | chirpExc (e : ChirpError)
  | attributeError (msg : String)
  | notImplementedError (msg : String)
  | valueError (msg : String)
deriving DecidableEq, Repr

/-- Result of one facade operation: a value or a raised exception, with
the session state at exit and the wire commands sent during the call. -/
inductive OpResult (α : Type) where
  | ok (val : α) (s : Session) (sent : List String)
  | exc (e : PyExc) (s : Session) (sent : List String)
deriving DecidableEq, Repr

/-- HTChirp.rename: connect, send the rename command, disconnect. The
server's integer response is checked inside __simple_command; a negative
response raises there and no handler runs the disconnect on that path. -/
def rename (oldPath newPath : String) (resp : Int) (s : Session) : OpResult Unit :=
  let s₁ := connectS s
  let cmd := "rename " ++ quote oldPath ++ " " ++ quote newPath ++ "\n"
  match checkResponse resp with
  | some e => .exc (.chirpExc e) s₁ [cmd]
  | none => .ok () (disconnectS s₁) [cmd]

/-- HTChirp.rmall: connect, send the rmall command, then call
self._disconnect(). The class only defines __disconnect, which Python
name mangling stores as _HTChirp__disconnect; no _disconnect attribute
exists, so even the normal path raises AttributeError with the socket
still open. -/
def rmall (path : String) (resp : Int) (s : Session) : OpResult Unit :=
  let s₁ := connectS s
  let cmd := "rmall " ++ quote path ++ "\n"
  match checkResponse resp with
  | some e => .exc (.chirpExc e) s₁ [cmd]
  | none =>
    .exc (.attributeError
      "\x27HTChirp\x27 object has no attribute \x27_disconnect\x27") s₁ [cmd]

/-- HTChirp.rmdir: with recursive=True the body calls self.__rmall, which
name mangling resolves to the undefined attribute _HTChirp__rmall, so the
call raises AttributeError before connecting or sending anything; with
recursive=False it sends the rmdir command. -/
def rmdir (path : String) (recursive : Bool) (resp : Int) (s : Session) :
    OpResult Unit :=
  if recursive then
    .exc (.attributeError
      "\x27HTChirp\x27 object has no attribute \x27_HTChirp__rmall\x27") s []
  else
    let s₁ := connectS s
    let cmd := "rmdir " ++ quote path ++ "\n"
    match checkResponse resp with
    | some e => .exc (.chirpExc e) s₁ [cmd]
    | none => .ok () (disconnectS s₁) [cmd]

/-- C2 is violated by the code: rmall raises AttributeError on its normal
path (self._disconnect is undefined) and ends with the socket open, and
rename propagates a taxonomy error from a negative response with the
socket still open, since no handler runs the disconnect on that path;
only the normal path of operations such as rename closes the socket. -/
theorem session_release_violated :
    rmall "/tmp/dir" 0 ⟨false, []⟩ =
      .exc (.attributeError
        "\x27HTChirp\x27 object has no attribute \x27_disconnect\x27")
        ⟨true, []⟩ ["rmall /tmp/dir\n"]
    ∧ rename "a" "b" (-1) ⟨false, []⟩ =
      .exc (.chirpExc ⟨.notAuthenticated,
        "The client has not authenticated its identity."⟩)
        ⟨true, []⟩ ["rename a b\n"]
    ∧ rename "a" "b" 0 ⟨false, []⟩ = .ok () ⟨false, []⟩ ["rename a b\n"] :=
  ⟨rfl, rfl, rfl⟩

/-- C5 is violated by the code: rmdir with recursive=True raises
AttributeError (self.__rmall mangles to the undefined _HTChirp__rmall)
without issuing any wire command, so the rmall verb is never sent; with
recursive=False it does issue the rmdir verb. -/
theorem rmdir_recursive_attribute_error :
    rmdir "/d" true 0 ⟨false, []⟩ =
      .exc (.attributeError
        "\x27HTChirp\x27 object has no attribute \x27_HTChirp__rmall\x27")
        ⟨false, []⟩ []
    ∧ rmdir "/d" false 0 ⟨false, []⟩ = .ok () ⟨false, []⟩ ["rmdir /d\n"] :=
  ⟨rfl, rfl⟩

/-- The five recognized authentication method names. -/
def CHIRP_AUTH_METHODS : List String :=
  ["cookie", "hostname", "unix", "kerberos", "globus"]

/-- Outcome of running HTChirp.__authenticate for one method. -/
inductive AuthOutcome where
  | ok
  | raised (e : PyExc)
deriving DecidableEq, Repr

/-- HTChirp.__authenticate given the server's stripped response line to
the cookie command: for "cookie" it sends the cookie command, and
__simple_command checks a numeric response first, so a negative integer
response raises the taxonomy error of the table; any other non-"0"
response raises NotAuthenticated; the four other recognized names raise
NotImplementedError without sending anything; an unrecognized name raises
ValueError. Returns the outcome and the wire commands sent. -/
def authenticate (cookie : String) (method : String) (resp : String) :
    AuthOutcome × List String :=
  if method = "cookie" then
    let cmd := "cookie " ++ cookie ++ "\n"
    match (pyInt? resp).bind checkResponse with
    | some e => (.raised (.chirpExc e), [cmd])
    | none =>
      if resp = "0" then (.ok, [cmd])
      else
        (.raised (.chirpExc ⟨.notAuthenticated,
          "Could not authenticate using " ++ method⟩), [cmd])
  else if method ∈ CHIRP_AUTH_METHODS then
    (.raised (.notImplementedError
      ("Auth method \x27" ++ method ++ "\x27 not implemented in this client")), [])
  else
    (.raised (.valueError
      ("Unknown authentication method \x27" ++ method ++ "\x27")), [])

/-- C7 counterexample: with server response -2 to the cookie command the
raised error is NotAuthorized, the taxonomy error of the response
checker, not NotAuthenticated as the claim states for any non-0
response. -/
theorem authenticate_notauthorized_counterexample :
    (authenticate "s" "cookie" "-2").1 =
      .raised (.chirpExc ⟨.notAuthorized,
        "The client is not authorized to perform that action."⟩)
    ∧ ChirpErrorKind.notAuthorized ≠ ChirpErrorKind.notAuthenticated := by
  exact ⟨rfl, by decide⟩

/-- C7 amended: the single-method authentication step classifies methods
exhaustively: "cookie" sends the cookie command and succeeds iff the
response is exactly "0"; a negative integer response raises the taxonomy
error fixed by the response table (NotAuthenticated only for -1); any
other non-"0" response raises NotAuthenticated; hostname, unix, kerberos
and globus raise NotImplementedError without sending anything; any other
name raises ValueError. -/
theorem authenticate_classification (cookie method resp : String) :
    (method = "cookie" → resp = "0" →
      authenticate cookie method resp = (.ok, ["cookie " ++ cookie ++ "\n"]))
    ∧ (∀ i e, method = "cookie" → pyInt? resp = some i → checkResponse i = some e →
      authenticate cookie method resp =
        (.raised (.chirpExc e), ["cookie " ++ cookie ++ "\n"]))
    ∧ (method = "cookie" → (pyInt? resp).bind checkResponse = none → resp ≠ "0" →
      authenticate cookie method resp =
        (.raised (.chirpExc ⟨.notAuthenticated,
          "Could not authenticate using " ++ method⟩),
         ["cookie " ++ cookie ++ "\n"]))
    ∧ (method ≠ "cookie" → method ∈ CHIRP_AUTH_METHODS →
      authenticate cookie method resp =
        (.raised (.notImplementedError
          ("Auth method \x27" ++ method ++ "\x27 not implemented in this client")),
         []))
    ∧ (method ∉ CHIRP_AUTH_METHODS →
      authenticate cookie method resp =
        (.raised (.valueError
          ("Unknown authentication method \x27" ++ method ++ "\x27")), [])) := by
  refine ⟨?_, ?_, ?_, ?_, ?_⟩
  · intro hm hr
    subst hm
    subst hr
    rfl
  · intro i e hm hi he
    subst hm
    rw [authenticate]
    simp [hi, he]
  · intro hm hbind hne
    subst hm
    rw [authenticate]
    simp [hbind, hne]
  · intro hne hmem
    rw [authenticate]
    simp [hne, hmem]
  · intro hnm
    have hne : method ≠ "cookie" := by
      intro h
      rw [h] at hnm
      exact hnm (by decide)
    rw [authenticate]
    simp [hne, hnm]

/-- Witness for C7 at concrete methods and responses. -/
theorem authenticate_classification_witness :
    authenticate "sec" "cookie" "0" = (.ok, ["cookie sec\n"])
    ∧ authenticate "sec" "cookie" "-3" =
        (.raised (.chirpExc ⟨.doesntExist, "There is no object by that name."⟩),
         ["cookie sec\n"])
    ∧ authenticate "sec" "cookie" "1" =
        (.raised (.chirpExc ⟨.notAuthenticated,
          "Could not authenticate using cookie"⟩), ["cookie sec\n"])
    ∧ authenticate "sec" "unix" "0" =
        (.raised (.notImplementedError
          "Auth method \x27unix\x27 not implemented in this client"), [])
    ∧ authenticate "sec" "ssl" "0" =
        (.raised (.valueError "Unknown authentication method \x27ssl\x27"), []) := by
  refine ⟨(authenticate_classification "sec" "cookie" "0").1 rfl rfl,
    (authenticate_classification "sec" "cookie" "-3").2.1 (-3)
      ⟨.doesntExist, "There is no object by that name."⟩ rfl (by decide) (by decide),
    (authenticate_classification "sec" "cookie" "1").2.2.1 rfl (by decide) (by decide),
    (authenticate_classification "sec" "unix" "0").2.2.2.1 (by decide) (by decide),
    (authenticate_classification "sec" "ssl" "0").2.2.2.2 (by decide)⟩

/-- Outcome of one construction-time probe __connect(auth_method). -/
inductive ConnectOutcome where
  | success
  | notAuthenticated
  | notImplemented (msg : String)
deriving DecidableEq, Repr

/-- Result of client construction. -/
inductive InitResult where
  | authenticated (method : String)
  | errNotImplemented (msg : String)
  | errNotAuthenticated (msg : String)
deriving DecidableEq, Repr

/-- The comma-separated interior of the Python repr of a string list, as
str.format renders the auth list in the construction failure message. -/
def pyListReprItems : List String → String
  | [] => ""
  | [s] => "\x27" ++ s ++ "\x27"
  | s :: t :: rest => "\x27" ++ s ++ "\x27, " ++ pyListReprItems (t :: rest)

/-- The Python repr of a list of strings. -/
def pyListRepr (l : List String) : String := "[" ++ pyListReprItems l ++ "]"

/-- The message of the construction-time NotAuthenticated failure. -/
def authFailMessage (auth : List String) : String :=
  "Could not authenticate with methods " ++ pyListRepr auth

/-- The authentication loop of HTChirp.__init__: try each method in
order; a NotAuthenticated probe disconnects and falls through; a
NotImplementedError probe disconnects and re-raises; a successful probe
disconnects, records the method, and stops. Returns the result paired
with the number of probe disconnects performed. -/
def authLoop (outcome : String → ConnectOutcome) (full : List String) :
    List String → InitResult × Nat
  | [] => (.errNotAuthenticated (authFailMessage full), 0)
  | m :: rest =>
    match outcome m with
    | .success => (.authenticated m, 1)
    | .notAuthenticated =>
      let r := authLoop outcome full rest
      (r.1, r.2 + 1)
    | .notImplemented msg => (.errNotImplemented msg, 1)

/-- The construction-time authentication of HTChirp.__init__, from the
start of the loop over the configured auth list. -/
def clientInit (outcome : String → ConnectOutcome) (auth : List String) :
    InitResult × Nat :=
  authLoop outcome auth auth

/-- Every member of the list occurs verbatim inside the repr interior. -/
lemma pyListReprItems_substring (m : String) :
    ∀ l : List String, m ∈ l →
      ∃ pre post : List Char, (pyListReprItems l).data = pre ++ m.data ++ post := by
  intro l
  induction l with
  | nil =>
    intro h
    exact absurd h (List.not_mem_nil m)
  | cons a t ih =>
    intro h
    rcases List.mem_cons.mp h with heq | hm
    · subst heq
      cases t with
      | nil =>
        refine ⟨['\x27'], ['\x27'], ?_⟩
        show (("\x27" ++ m ++ "\x27" : String)).data = _
        simp
      | cons b t' =>
        refine ⟨['\x27'],
          '\x27' :: ',' :: ' ' :: (pyListReprItems (b :: t')).data, ?_⟩
        show (("\x27" ++ m ++ "\x27, " ++ pyListReprItems (b :: t')).data) = _
        simp
    · have ht : t ≠ [] := by
        intro h0
        rw [h0] at hm
        exact absurd hm (List.not_mem_nil m)
      cases t with
      | nil => exact absurd rfl ht
      | cons b t' =>
        obtain ⟨pre, post, hp⟩ := ih hm
        refine ⟨'\x27' :: a.data ++ ('\x27' :: ',' :: ' ' :: pre), post, ?_⟩
        show (("\x27" ++ a ++ "\x27, " ++ pyListReprItems (b :: t')).data) = _
        simp [hp]

/-- Every member of the auth list occurs verbatim inside the
construction-failure message. -/
lemma authFailMessage_names (m : String) (auth : List String) (h : m ∈ auth) :
    ∃ pre post : List Char, (authFailMessage auth).data = pre ++ m.data ++ post := by
  obtain ⟨pre, post, hp⟩ := pyListReprItems_substring m auth h
  refine ⟨("Could not authenticate with methods [" : String).data ++ pre,
    post ++ [']'], ?_⟩
  show (("Could not authenticate with methods " ++
    ("[" ++ pyListReprItems auth ++ "]") : String)).data = _
  simp [hp]

/-- A run of methods that all fail with NotAuthenticated is skipped,
adding one disconnect per skipped method. -/
lemma authLoop_skip (outcome : String → ConnectOutcome) (full : List String) :
    ∀ (pre rest : List String), (∀ x ∈ pre, outcome x = .notAuthenticated) →
      authLoop outcome full (pre ++ rest) =
        ((authLoop outcome full rest).1,
         (authLoop outcome full rest).2 + pre.length) := by
  intro pre
  induction pre with
  | nil =>
    intro rest _
    simp
  | cons a t ih =>
    intro rest h
    have ha : outcome a = .notAuthenticated := h a (by simp)
    have ht : ∀ x ∈ t, outcome x = .notAuthenticated := by
      intro x hx
      exact h x (by simp [hx])
    rw [List.cons_append, authLoop, ha]
    rw [ih rest ht]
    simp
    omega

/-- A list whose every member fails with NotAuthenticated produces the
construction failure, with one disconnect per attempted method. -/
lemma authLoop_allfail (outcome : String → ConnectOutcome) (full : List String) :
    ∀ l : List String, (∀ x ∈ l, outcome x = .notAuthenticated) →
      authLoop outcome full l =
        (.errNotAuthenticated (authFailMessage full), l.length) := by
  intro l
  induction l with
  | nil =>
    intro _
    rfl
  | cons a t ih =>
    intro h
    have ha : outcome a = .notAuthenticated := h a (by simp)
    rw [authLoop, ha, ih (fun x hx => h x (by simp [hx]))]
    simp

/-- C6: client construction tries the configured methods in order,
stopping at the first that authenticates; NotAuthenticated falls through
to the next method; an unimplemented-method error aborts immediately; if
every method fails, construction raises NotAuthenticated whose message
names all attempted methods; and each attempted probe performs its
disconnect (the disconnect count equals the number of attempts). -/
theorem clientInit_auth_order (outcome : String → ConnectOutcome)
    (pre post : List String) (m : String) (auth : List String) :
    (auth = pre ++ m :: post → (∀ x ∈ pre, outcome x = .notAuthenticated) →
      outcome m = .success →
      clientInit outcome auth = (.authenticated m, pre.length + 1))
    ∧ (∀ msg, auth = pre ++ m :: post →
      (∀ x ∈ pre, outcome x = .notAuthenticated) →
      outcome m = .notImplemented msg →
      clientInit outcome auth = (.errNotImplemented msg, pre.length + 1))
    ∧ ((∀ x ∈ auth, outcome x = .notAuthenticated) →
      clientInit outcome auth =
        (.errNotAuthenticated (authFailMessage auth), auth.length)
      ∧ ∀ x ∈ auth, ∃ a b : List Char,
          (authFailMessage auth).data = a ++ x.data ++ b) := by
  refine ⟨?_, ?_, ?_⟩
  · intro hdecomp hpre hm
    rw [clientInit, hdecomp,
      authLoop_skip outcome (pre ++ m :: post) pre (m :: post) hpre]
    rw [authLoop, hm]
    simp [Nat.add_comm]
  · intro msg hdecomp hpre hm
    rw [clientInit, hdecomp,
      authLoop_skip outcome (pre ++ m :: post) pre (m :: post) hpre]
    rw [authLoop, hm]
    simp [Nat.add_comm]
  · intro hall
    exact ⟨authLoop_allfail outcome auth auth hall,
      fun x hx => authFailMessage_names x auth hx⟩

/-- Witness for C6: a first method that fails softly followed by one that
succeeds, and a configuration in which every method fails. -/
theorem clientInit_auth_order_witness :
    clientInit (fun m => if m = "unix" then .success else .notAuthenticated)
        ["cookie", "unix"] = (.authenticated "unix", 2)
    ∧ (clientInit (fun _ => .notAuthenticated) ["cookie", "unix"] =
        (.errNotAuthenticated (authFailMessage ["cookie", "unix"]), 2)
      ∧ ∀ x ∈ ["cookie", "unix"], ∃ a b : List Char,
          (authFailMessage ["cookie", "unix"]).data = a ++ x.data ++ b) := by
  constructor
  · exact (clientInit_auth_order
      (fun m => if m = "unix" then .success else .notAuthenticated)
      ["cookie"] [] "unix" ["cookie", "unix"]).1 rfl (by decide) (by decide)
  · exact (clientInit_auth_order (fun _ => .notAuthenticated)
      [] [] "" ["cookie", "unix"]).2.2 (by decide)

/-- The field-name list as HTChirp.getlongdir writes it: the missing
comma after the seventh entry makes Python concatenate the adjacent
string literals into the single name "rdevicesize", leaving 12 entries
instead of the 13 used by stat and lstat. -/
def getlongdirNames : List String :=
  ["device", "inode", "mode", "nlink", "uid", "gid",
   "rdevicesize", "blksize", "blocks", "atime", "mtime", "ctime"]

/-- Python str.split(sep) for a one-character separator: split on every
occurrence, keeping empty pieces. -/
def splitSepL (sep : Char) : List Char → List (List Char)
  | [] => [[]]
  | c :: cs =>
    if c = sep then [] :: splitSepL sep cs
    else
      match splitSepL sep cs with
      | [] => [[c]]
      | t :: ts => (c :: t) :: ts

/-- Every other element starting with the first, the slice [::2]. -/
def everyOther {α : Type} : List α → List α
  | [] => []
  | [a] => [a]
  | a :: _ :: rest => a :: everyOther rest

/-- One stat dictionary of getlongdir: parse the whitespace-delimited
tokens of a stat line as integers and zip them with the names list (zip
stops at the shorter list, so the 13th integer is dropped). -/
def getlongdirStatDict (line : List Char) : Option (List (String × Int)) :=
  ((pySplitL line).mapM (fun t => pyInt? ⟨t⟩)).map
    (fun ints => getlongdirNames.zip ints)

/-- The result-processing tail of HTChirp.getlongdir: rstrip the block
payload, split it on newlines, take the even lines as file names and the
odd lines as stat lines, and zip the names with the stat dictionaries. -/
def getlongdirParse (payload : String) :
    Option (List (String × List (String × Int))) :=
  let results := splitSepL '\n' (pyRstripL payload.data)
  let files := (everyOther results).map (fun l => (⟨l⟩ : String))
  ((everyOther (results.drop 1)).mapM getlongdirStatDict).map
    (fun ds => files.zip ds)

/-- C9 is violated by the code: getlongdir's names list has 12 entries
("rdevicesize" replacing the separate "rdevice" and "size"), so each
returned stat dictionary has 12 fields, the last integer of every stat
line is dropped, and ctime is bound to the 12th integer. The mapping
still has one entry per listed file. -/
theorem getlongdir_names_defect :
    getlongdirNames.length = 12
    ∧ statNames.length = 13
    ∧ "rdevicesize" ∈ getlongdirNames
    ∧ "rdevice" ∉ getlongdirNames
    ∧ "size" ∉ getlongdirNames
    ∧ getlongdirParse
        "a\n1 2 3 4 5 6 7 8 9 10 11 12 13\nb\n21 22 23 24 25 26 27 28 29 30 31 32 33\n" =
      some [("a", [("device", 1), ("inode", 2), ("mode", 3), ("nlink", 4),
                   ("uid", 5), ("gid", 6), ("rdevicesize", 7), ("blksize", 8),
                   ("blocks", 9), ("atime", 10), ("mtime", 11), ("ctime", 12)]),
            ("b", [("device", 21), ("inode", 22), ("mode", 23), ("nlink", 24),
                   ("uid", 25), ("gid", 26), ("rdevicesize", 27), ("blksize", 28),
                   ("blocks", 29), ("atime", 30), ("mtime", 31), ("ctime", 32)])] := by
  exact ⟨rfl, rfl, by decide, by decide, by decide, by decide⟩

end HTChirp
